import Mathlib

/-!
Verification of the recorder persistence mapping layer (`models.py`).

The development shallowly embeds the module: record classes become
structures, the codec methods become Lean functions, Python dicts become
association lists with first-occurrence lookup and in-place update, and the
Python exceptions the code can raise or catch are made explicit with
`Except`.  External collaborators are embedded as follows:

* `json.dumps` / `json.loads` (standard library, opaque to this layer per
  the specification): the JSON text column is modelled as either a
  well-formed document (`JsonText.valid`) or malformed text
  (`JsonText.malformed`); `dumps` always produces a well-formed document
  and `loads` fails exactly on malformed text with a `ValueError`.
* `datetime`: a timestamp is a naive clock reading together with an
  optional UTC offset (`none` = timezone-naive); `dt_util.UTC.localize`
  tags without shifting the clock, `dt_util.as_utc` shifts the clock by
  the offset.
* `homeassistant.core` (`State`, `Event`, `Context`, `EventOrigin`,
  `split_entity_id`) is modelled from its documented behaviour where the
  codecs depend on it.
-/

/-- JSON values; objects are association lists preserving insertion
order, exactly as Python dicts do. -/
inductive JsonVal where
  | null : JsonVal
  | bool : Bool → JsonVal
  | num : Int → JsonVal
  | str : String → JsonVal
  | arr : List JsonVal → JsonVal
  | obj : List (String × JsonVal) → JsonVal

/-- The content of a JSON `Text` column: either a well-formed serialized
document or malformed text (which `json.loads` rejects). -/
inductive JsonText where
  | valid : JsonVal → JsonText
  | malformed : String → JsonText

/-- Embedding of `json.loads` on a stored text column: parses a well-formed document,
raises `ValueError` (here: `none`) on malformed text. -/
def json_loads : JsonText → Option JsonVal
  | JsonText.valid j => some j
  | JsonText.malformed _ => none

/-- A Python `datetime`: a naive clock reading (in abstract ticks) plus an
optional timezone offset in the same ticks; `tz = none` is a naive
timestamp, `tz = some 0` is aware UTC. -/
structure PyDatetime where
  clock : Int
  tz : Option Int
deriving DecidableEq, Repr

/-- The absolute instant a timestamp denotes; a naive timestamp is read as
UTC, matching how this layer interprets naive values. -/
def PyDatetime.instant (d : PyDatetime) : Int :=
  d.clock - d.tz.getD 0

/-- Embedding of `dt_util.UTC.localize`: tag a naive timestamp as UTC without shifting
its clock fields. -/
def utc_localize (ts : PyDatetime) : PyDatetime :=
  { clock := ts.clock, tz := some 0 }

/-- Embedding of `dt_util.as_utc`: return an aware-UTC timestamp unchanged and shift
any other aware timestamp into UTC.  (`_process_timestamp` only calls
this on aware input; the naive branch is modelled as tagging.) -/
def as_utc (ts : PyDatetime) : PyDatetime :=
  if ts.tz = some 0 then ts
  else
    match ts.tz with
    | none => utc_localize ts
    | some off => { clock := ts.clock - off, tz := some 0 }

/-- The branch of `_process_timestamp` taken on a non-null input. -/
def _process_timestamp_core (ts : PyDatetime) : PyDatetime :=
  if ts.tz = none then utc_localize ts else as_utc ts

/-- Embedding of `_process_timestamp` from `models.py`: `None` passes through, a naive
timestamp is localized to UTC, an aware one is converted to UTC. -/
def _process_timestamp : Option PyDatetime → Option PyDatetime
  | none => none
  | some ts => some (_process_timestamp_core ts)

/-- Embedding of `homeassistant.core.Context`: correlation identifiers (nullable). -/
structure Context where
  id : Option String
  user_id : Option String
deriving DecidableEq, Repr

/-- Embedding of the `homeassistant.core.EventOrigin` enumeration. -/
inductive EventOrigin where
  | «local» : EventOrigin
  | remote : EventOrigin
deriving DecidableEq, Repr

/-- Embedding of `str(event.origin)`: the string value of the enumeration member. -/
def EventOrigin.toStr : EventOrigin → String
  | EventOrigin.«local» => "LOCAL"
  | EventOrigin.remote => "REMOTE"

/-- Embedding of `EventOrigin(s)`: parse the stored string back into the enumeration;
any other string raises `ValueError` (here: `none`). -/
def EventOrigin.ofString (s : String) : Option EventOrigin :=
  if s = "LOCAL" then some EventOrigin.«local»
  else if s = "REMOTE" then some EventOrigin.remote
  else none

/-- The Python exceptions this module can raise or catch. -/
inductive PyExc where
  | valueError : PyExc
  | typeError : PyExc
  | keyError : PyExc
  | attributeError : PyExc
  | assertionError : PyExc
deriving DecidableEq, Repr

/-- Python dict read `d[k]` / `d.get(k)`: first occurrence of the key. -/
def pyGet {α : Type} (k : String) : List (String × α) → Option α
  | [] => none
  | (k', v) :: rest => if k = k' then some v else pyGet k rest

/-- Python dict write `d[k] = v`: replace the value at the first
occurrence of the key, keeping its position, or append a fresh entry. -/
def dictSet {α : Type} (k : String) (v : α) : List (String × α) → List (String × α)
  | [] => [(k, v)]
  | (k', v') :: rest => if k = k' then (k, v) :: rest else (k', v') :: dictSet k v rest

/-- Embedding of `KEYS_TO_FILTER_FROM_DB` from `models.py`, with the `homeassistant.const`
attribute names resolved to their string values. -/
def KEYS_TO_FILTER_FROM_DB : List String :=
  ["entity_id", "area_id", "entity_picture", "hidden", "icon", "device_class", "editable"]

/-- The dict comprehension inside `_filter_attributes`, generic in the
value type because the filter is applied both to attribute dicts of JSON
values and to heap-valued dicts. -/
def filterKeys {α : Type} (unfiltered : List (String × α)) : List (String × α) :=
  unfiltered.filter (fun kv => decide (kv.1 ∉ KEYS_TO_FILTER_FROM_DB))

/-- Embedding of `_filter_attributes` from `models.py`: drop every entry whose key is
in the deny list. -/
def _filter_attributes (unfiltered_dict : List (String × JsonVal)) : List (String × JsonVal) :=
  filterKeys unfiltered_dict

/-- Embedding of `homeassistant.core.split_entity_id`: `entity_id.split(".", 1)`; the
first component (the domain) is the prefix of the identifier before its
first dot, the second is the remainder. -/
def split_entity_id (entity_id : String) : String × String :=
  let cs := entity_id.toList
  (String.mk (cs.takeWhile (fun c => c ≠ '.')),
   String.mk ((cs.dropWhile (fun c => c ≠ '.')).drop 1))

/-- Embedding of `homeassistant.core.State`: a state snapshot.  The constructor
derives `domain` from the entity identifier; attribute values are kept as
JSON values since attributes are JSON-serializable data. -/
structure State where
  entity_id : String
  domain : String
  state : String
  attributes : List (String × JsonVal)
  last_changed : PyDatetime
  last_updated : PyDatetime
  context : Context

/-- A value stored in an event data dict: either plain JSON-serializable
data (Python `None` is `js JsonVal.null`) or an embedded `State` object. -/
inductive PyVal where
  | js : JsonVal → PyVal
  | st : State → PyVal

/-- Serialization of a datetime by the domain-aware `JSONEncoder` (an ISO
string; its exact shape is opaque to this layer). -/
def encodeDt (d : PyDatetime) : JsonVal :=
  JsonVal.str (toString d.clock ++ "@" ++ toString (d.tz.getD 0))

/-- Embedding of `State.as_dict` from `homeassistant.core`, modelled with its
principal fields: the dict form of a state, with a fresh copy of its
attributes mapping. -/
def State.as_dict (s : State) : List (String × JsonVal) :=
  [("entity_id", JsonVal.str s.entity_id),
   ("state", JsonVal.str s.state),
   ("attributes", JsonVal.obj s.attributes),
   ("last_changed", encodeDt s.last_changed),
   ("last_updated", encodeDt s.last_updated)]

/-- The `JSONEncoder` view of an event-data value: a `State` entry is
encoded through `as_dict`, plain JSON passes through. -/
def pyValToJson : PyVal → JsonVal
  | PyVal.js j => j
  | PyVal.st s => JsonVal.obj s.as_dict

/-- One iteration of the loop in `_filter_state_change_event_data` for a
given key: when the entry is present and is a `State`, replace it by its
dict form and then overwrite that dict entry `attributes` with the
filtered attributes. -/
def _filter_sce_step (fd : List (String × PyVal)) (key : String) : List (String × PyVal) :=
  match pyGet key fd with
  | some (PyVal.st s) =>
      let d1 := State.as_dict s
      let d2 := dictSet "attributes" (JsonVal.obj (_filter_attributes s.attributes)) d1
      dictSet key (PyVal.js (JsonVal.obj d2)) fd
  | _ => fd

/-- Embedding of `_filter_state_change_event_data` from `models.py`: copy the event
data and rewrite the `old_state` and `new_state` entries. -/
def _filter_state_change_event_data (unfiltered_dict : List (String × PyVal)) :
    List (String × PyVal) :=
  _filter_sce_step (_filter_sce_step unfiltered_dict "old_state") "new_state"

/-- Embedding of `homeassistant.core.Event` on the write side: the native event object
handed to the codecs. -/
structure Event where
  event_type : String
  data : List (String × PyVal)
  origin : EventOrigin
  time_fired : PyDatetime
  context : Context

/-- Embedding of `EVENT_STATE_CHANGED` from `homeassistant.const`. -/
def EVENT_STATE_CHANGED : String := "state_changed"

/-- The `events` table row (`Events` in `models.py`); the identity and
`created` columns are storage-assigned and omitted. -/
structure Events where
  event_type : String
  event_data : JsonText
  origin : String
  time_fired : PyDatetime
  context_id : Option String
  context_user_id : Option String

/-- The native event reconstructed by `Events.to_native`: its data is
whatever JSON the stored payload parses to. -/
structure EventNative where
  event_type : String
  data : JsonVal
  origin : EventOrigin
  time_fired : PyDatetime
  context : Context

/-- The map over dict values performed by `json.dumps` with the
domain-aware encoder. -/
def encodeData (d : List (String × PyVal)) : List (String × JsonVal) :=
  d.map (fun kv => (kv.1, pyValToJson kv.2))

/-- Embedding of `Events.from_event`: build an event row from a native event, passing
state-changed payloads through `_filter_state_change_event_data` before
serialization. -/
def Events.from_event (event : Event) : Events :=
  { event_type := event.event_type,
    event_data := JsonText.valid (JsonVal.obj (encodeData
      (if event.event_type = EVENT_STATE_CHANGED
       then _filter_state_change_event_data event.data
       else event.data))),
    origin := event.origin.toStr,
    time_fired := event.time_fired,
    context_id := event.context.id,
    context_user_id := event.context.user_id }

/-- The body of the `try` block in `Events.to_native`: `json.loads` and
the `EventOrigin` constructor both raise `ValueError` on bad input. -/
def Events.to_native_body (e : Events) : Except PyExc EventNative :=
  match json_loads e.event_data with
  | none => Except.error PyExc.valueError
  | some d =>
      match EventOrigin.ofString e.origin with
      | none => Except.error PyExc.valueError
      | some o =>
          Except.ok
            { event_type := e.event_type, data := d, origin := o,
              time_fired := _process_timestamp_core e.time_fired,
              context := { id := e.context_id, user_id := e.context_user_id } }

/-- Embedding of `Events.to_native`: the `except ValueError` clause turns any
`ValueError` raised in the body into `None`. -/
def Events.to_native (e : Events) : Option EventNative :=
  match Events.to_native_body e with
  | Except.ok v => some v
  | Except.error _ => none

/-- The `states` table row (`States` in `models.py`); identity, foreign
key and `created` columns are storage-assigned and omitted. -/
structure States where
  domain : String
  entity_id : String
  state : String
  attributes : JsonText
  last_changed : PyDatetime
  last_updated : PyDatetime
  context_id : Option String
  context_user_id : Option String

/-- Embedding of `States.from_event`: build a state row from a state-changed event.
The unconditional `event.data["entity_id"]` read raises `KeyError` when
the key is absent; a non-string identifier is modelled as a `TypeError`
(the stored column is string-typed and the deletion path would fail on
it); a `new_state` value that is neither `None` nor a `State` raises
`AttributeError` when the code reads `state.domain`. -/
def States.from_event (event : Event) : Except PyExc States :=
  match pyGet "entity_id" event.data with
  | none => Except.error PyExc.keyError
  | some (PyVal.js (JsonVal.str entity_id)) =>
      match pyGet "new_state" event.data with
      | none =>
          Except.ok
            { domain := (split_entity_id entity_id).1, entity_id := entity_id,
              state := "", attributes := JsonText.valid (JsonVal.obj []),
              last_changed := event.time_fired, last_updated := event.time_fired,
              context_id := event.context.id, context_user_id := event.context.user_id }
      | some (PyVal.js JsonVal.null) =>
          Except.ok
            { domain := (split_entity_id entity_id).1, entity_id := entity_id,
              state := "", attributes := JsonText.valid (JsonVal.obj []),
              last_changed := event.time_fired, last_updated := event.time_fired,
              context_id := event.context.id, context_user_id := event.context.user_id }
      | some (PyVal.st s) =>
          Except.ok
            { domain := s.domain, entity_id := entity_id, state := s.state,
              attributes := JsonText.valid (JsonVal.obj (_filter_attributes s.attributes)),
              last_changed := s.last_changed, last_updated := s.last_updated,
              context_id := event.context.id, context_user_id := event.context.user_id }
      | some (PyVal.js _) => Except.error PyExc.attributeError
  | some _ => Except.error PyExc.typeError

/-- Embedding of `States.to_native`: parse the stored attributes and rebuild a
`State`.  The `except ValueError` clause catches the `json.loads`
failure and yields `None`; the `State` constructor (with the legacy
identifier bypass) accepts a parsed dict, treats JSON `null` as an empty
mapping (`attributes or \x7b\x7d`), and raises `TypeError` on any other
parsed shape. -/
def States.to_native (r : States) : Except PyExc (Option State) :=
  match json_loads r.attributes with
  | none => Except.ok none
  | some (JsonVal.obj kvs) =>
      Except.ok (some
        { entity_id := r.entity_id, domain := (split_entity_id r.entity_id).1,
          state := r.state, attributes := kvs,
          last_changed := _process_timestamp_core r.last_changed,
          last_updated := _process_timestamp_core r.last_updated,
          context := { id := r.context_id, user_id := r.context_user_id } })
  | some JsonVal.null =>
      Except.ok (some
        { entity_id := r.entity_id, domain := (split_entity_id r.entity_id).1,
          state := r.state, attributes := [],
          last_changed := _process_timestamp_core r.last_changed,
          last_updated := _process_timestamp_core r.last_updated,
          context := { id := r.context_id, user_id := r.context_user_id } })
  | some _ => Except.error PyExc.typeError

/-- The `recorder_runs` table row, together with the ORM session it is
attached to once persisted: the session gives access to the stored state
rows; `none` models a transient, unpersisted run. -/
structure RecorderRuns where
  start : PyDatetime
  «end» : Option PyDatetime
  closed_incorrect : Bool
  session : Option (List States)

/-- Comparison of stored timestamp columns (`timestamptz` semantics:
compare the absolute instants). -/
def dtLe (a b : PyDatetime) : Bool := decide (a.instant ≤ b.instant)

def dtLt (a b : PyDatetime) : Bool := decide (a.instant < b.instant)

/-- Embedding of `RecorderRuns.entity_ids`: distinct entity identifiers of state rows
with `last_updated >= start`, bounded above by `point_in_time` when
given, else by `end` when set; asserts that the run is persisted. -/
def RecorderRuns.entity_ids (run : RecorderRuns) (point_in_time : Option PyDatetime) :
    Except PyExc (List String) :=
  match run.session with
  | none => Except.error PyExc.assertionError
  | some states =>
      let q1 := states.filter (fun (s : States) => dtLe run.start s.last_updated)
      let q2 :=
        match point_in_time with
        | some p => q1.filter (fun (s : States) => dtLt s.last_updated p)
        | none =>
            match run.«end» with
            | some e => q1.filter (fun (s : States) => dtLt s.last_updated e)
            | none => q1
      Except.ok ((q2.map States.entity_id).dedup)

/-!
Heap model of `_filter_state_change_event_data`.

The value-level function above gives the result; the claim that the input
event data and the embedded state objects are left unmutated is about
Python object identity, so the function is replayed here over an explicit
heap of mutable dicts.  Addresses are indices into a list of dicts;
allocation appends, `d[k] = v` writes through an address.
-/

/-- The immutable part of a `State` object in the heap model; its
attributes mapping is a mutable dict living at `attrs_addr`. -/
structure HState where
  entity_id : String
  state : String
  attrs_addr : Nat
  last_changed : PyDatetime
  last_updated : PyDatetime

/-- A Python value in the heap model: an immutable primitive, a reference
to a mutable dict, or a `State` object. -/
inductive HVal where
  | prim : JsonVal → HVal
  | dref : Nat → HVal
  | sref : HState → HVal

/-- A mutable dict is a list of entries; the heap is a list of dicts
indexed by address. -/
abbrev HDict := List (String × HVal)

abbrev Heap := List HDict

/-- Allocate a fresh dict, returning the new heap and its address. -/
def halloc (h : Heap) (d : HDict) : Heap × Nat := (h ++ [d], h.length)

/-- Read the dict at an address. -/
def hget (h : Heap) (a : Nat) : HDict := h.getD a []

/-- Overwrite the dict at an address. -/
def hset (h : Heap) (a : Nat) (d : HDict) : Heap := h.set a d

/-- Replay of `State.as_dict` in the heap model: `dict(self.attributes)` allocates
a fresh copy of the attributes dict, and the dict form itself is a fresh
allocation referring to that copy. -/
def hAsDict (h : Heap) (s : HState) : Heap × Nat :=
  let r1 := halloc h (hget h s.attrs_addr)
  halloc r1.1
    [("entity_id", HVal.prim (JsonVal.str s.entity_id)),
     ("state", HVal.prim (JsonVal.str s.state)),
     ("attributes", HVal.dref r1.2),
     ("last_changed", HVal.prim (encodeDt s.last_changed)),
     ("last_updated", HVal.prim (encodeDt s.last_updated))]

/-- One iteration of the loop in `_filter_state_change_event_data` over
the heap: `filtered_dict[key] = filtered_dict[key].as_dict()` followed by
`filtered_dict[key]["attributes"] =
_filter_attributes(filtered_dict[key]["attributes"])`, which builds a
fresh dict from the filtered entries. -/
def hStep (h : Heap) (ac : Nat) (key : String) : Heap :=
  match pyGet key (hget h ac) with
  | some (HVal.sref s) =>
      let r1 := hAsDict h s
      let h2 := hset r1.1 ac (dictSet key (HVal.dref r1.2) (hget r1.1 ac))
      match pyGet "attributes" (hget h2 r1.2) with
      | some (HVal.dref aAttrs) =>
          let r3 := halloc h2 (filterKeys (hget h2 aAttrs))
          hset r3.1 r1.2 (dictSet "attributes" (HVal.dref r3.2) (hget r3.1 r1.2))
      | _ => h2
  | _ => h

/-- Replay of `_filter_state_change_event_data` over the heap:
`filtered_dict = unfiltered_dict.copy()` allocates a shallow copy, then
the two keys are processed in order; the address of the copy is the
function result. -/
def hFilterSCE (h : Heap) (a : Nat) : Heap × Nat :=
  let r0 := halloc h (hget h a)
  let h1 := hStep r0.1 r0.2 "old_state"
  let h2 := hStep h1 r0.2 "new_state"
  (h2, r0.2)

/-- Modelled from the spec: the state-changed event the event system
fires for a state object, carrying the entity identifier and the state as
`new_state` in its data (`old_state` is the previous state or `None`). -/
def stateChangedEvent (S : State) (tf : PyDatetime) (ctx : Context) : Event :=
  { event_type := EVENT_STATE_CHANGED,
    data := [("entity_id", PyVal.js (JsonVal.str S.entity_id)),
             ("old_state", PyVal.js JsonVal.null),
             ("new_state", PyVal.st S)],
    origin := EventOrigin.«local»,
    time_fired := tf,
    context := ctx }

/-- Heap extension: every address below `n` keeps its content, and the
heap stays at least `n` dicts long.  All heap operations of the codec
only write to addresses allocated during the call, so they extend the
initial heap. -/
def HeapExt (n : Nat) (h h' : Heap) : Prop :=
  n ≤ h'.length ∧ ∀ i, i < n → hget h' i = hget h i

/-!  Helper lemmas about the dict primitives and the heap. -/

theorem pyGet_filterKeys_denied {α : Type} (l : List (String × α)) (k : String)
    (hk : k ∈ KEYS_TO_FILTER_FROM_DB) : pyGet k (filterKeys l) = none := by
  induction l with
  | nil => rfl
  | cons kv rest ih =>
    by_cases hmem : kv.1 ∈ KEYS_TO_FILTER_FROM_DB
    · simpa [filterKeys, List.filter_cons, hmem] using ih
    · have hne : k ≠ kv.1 := fun h => hmem (h ▸ hk)
      simpa [filterKeys, List.filter_cons, hmem, pyGet, hne] using ih

theorem filterKeys_idem {α : Type} (l : List (String × α)) :
    filterKeys (filterKeys l) = filterKeys l := by
  simp [filterKeys, List.filter_filter]

theorem filterKeys_sublist {α : Type} (l : List (String × α)) :
    (filterKeys l).Sublist l :=
  List.filter_sublist l

theorem mem_filterKeys {α : Type} (l : List (String × α)) (k : String) (v : α) :
    (k, v) ∈ filterKeys l ↔ (k, v) ∈ l ∧ k ∉ KEYS_TO_FILTER_FROM_DB := by
  simp [filterKeys, List.mem_filter]

theorem pyGet_dictSet_self {α : Type} (k : String) (v : α) (d : List (String × α)) :
    pyGet k (dictSet k v d) = some v := by
  induction d with
  | nil => simp [dictSet, pyGet]
  | cons kv rest ih =>
    by_cases h : k = kv.1
    · simp [dictSet, h, pyGet]
    · simpa [dictSet, h, pyGet] using ih

theorem pyGet_dictSet_ne {α : Type} (k k' : String) (v : α) (d : List (String × α))
    (h : k ≠ k') : pyGet k (dictSet k' v d) = pyGet k d := by
  induction d with
  | nil => simp [dictSet, pyGet, h]
  | cons kv rest ih =>
    by_cases h' : k' = kv.1
    · subst h'
      simp [dictSet, pyGet, h]
    · by_cases h'' : k = kv.1
      · simp [dictSet, h', pyGet, h'']
      · simpa [dictSet, h', pyGet, h''] using ih

theorem pyGet_encodeData (d : List (String × PyVal)) (k : String) :
    pyGet k (encodeData d) = (pyGet k d).map pyValToJson := by
  induction d with
  | nil => rfl
  | cons kv rest ih =>
    by_cases h : k = kv.1
    · simp [encodeData, pyGet, h]
    · simpa [encodeData, pyGet, h] using ih

theorem HeapExt.trans' {n : Nat} {h h' h'' : Heap}
    (h1 : HeapExt n h h') (h2 : HeapExt n h' h'') : HeapExt n h h'' :=
  ⟨h2.1, fun i hi => (h2.2 i hi).trans (h1.2 i hi)⟩

theorem HeapExt.of_halloc {n : Nat} {h : Heap} (d : HDict) (hn : n ≤ h.length) :
    HeapExt n h ((halloc h d).1) := by
  refine ⟨by simpa [halloc] using Nat.le_succ_of_le hn, fun i hi => ?_⟩
  have hlt : i < h.length := lt_of_lt_of_le hi hn
  show (h ++ [d]).getD i [] = h.getD i []
  exact List.getD_append _ _ _ _ hlt

theorem HeapExt.of_hset {n : Nat} {h : Heap} {a : Nat} (d : HDict)
    (hn : n ≤ h.length) (ha : n ≤ a) : HeapExt n h (hset h a d) := by
  refine ⟨by simpa [hset] using hn, fun i hi => ?_⟩
  have hne : a ≠ i := (Nat.ne_of_lt (lt_of_lt_of_le hi ha)).symm
  show (h.set a d).getD i [] = h.getD i []
  rw [List.getD_eq_getElem?_getD, List.getD_eq_getElem?_getD, List.getElem?_set_ne hne]

theorem HeapExt.length_mono {n : Nat} {h h' : Heap} (he : HeapExt n h h') :
    n ≤ h'.length := he.1

theorem hAsDict_ext {n : Nat} (h : Heap) (s : HState) (hn : n ≤ h.length) :
    HeapExt n h ((hAsDict h s).1) := by
  unfold hAsDict
  exact (HeapExt.of_halloc _ hn).trans'
    (HeapExt.of_halloc _ ((HeapExt.of_halloc (h := h) (hget h s.attrs_addr) hn).1))

theorem hAsDict_addr_ge {n : Nat} (h : Heap) (s : HState) (hn : n ≤ h.length) :
    n ≤ (hAsDict h s).2 := by
  unfold hAsDict
  simpa [halloc] using Nat.le_succ_of_le hn

theorem hStep_ext {n : Nat} (h : Heap) (ac : Nat) (key : String)
    (hn : n ≤ h.length) (hac : n ≤ ac) : HeapExt n h (hStep h ac key) := by
  unfold hStep
  cases hm : pyGet key (hget h ac) with
  | none => exact ⟨hn, fun i _ => rfl⟩
  | some v =>
    cases v with
    | prim j => exact ⟨hn, fun i _ => rfl⟩
    | dref a => exact ⟨hn, fun i _ => rfl⟩
    | sref s =>
      have e1 : HeapExt n h (hAsDict h s).1 := hAsDict_ext h s hn
      have haddr : n ≤ (hAsDict h s).2 := hAsDict_addr_ge h s hn
      have e2 : HeapExt n h (hset (hAsDict h s).1 ac
          (dictSet key (HVal.dref (hAsDict h s).2) (hget (hAsDict h s).1 ac))) :=
        e1.trans' (HeapExt.of_hset _ e1.1 hac)
      cases hm2 : pyGet "attributes" (hget (hset (hAsDict h s).1 ac
          (dictSet key (HVal.dref (hAsDict h s).2) (hget (hAsDict h s).1 ac))) (hAsDict h s).2) with
      | none => simpa [hm, hm2] using e2
      | some w =>
        cases w with
        | prim j => simpa [hm, hm2] using e2
        | sref s' => simpa [hm, hm2] using e2
        | dref aAttrs =>
          have e3 : HeapExt n h (halloc (hset (hAsDict h s).1 ac
              (dictSet key (HVal.dref (hAsDict h s).2) (hget (hAsDict h s).1 ac)))
              (filterKeys (hget (hset (hAsDict h s).1 ac
                (dictSet key (HVal.dref (hAsDict h s).2) (hget (hAsDict h s).1 ac))) aAttrs))).1 :=
            e2.trans' (HeapExt.of_halloc _ e2.1)
          simpa [hm, hm2] using e3.trans' (HeapExt.of_hset _ e3.1 haddr)

theorem hFilterSCE_ext (h : Heap) (a : Nat) : HeapExt h.length h (hFilterSCE h a).1 := by
  unfold hFilterSCE
  have e0 : HeapExt h.length h (halloc h (hget h a)).1 :=
    HeapExt.of_halloc _ (le_refl _)
  have hac : h.length ≤ (halloc h (hget h a)).2 := by simp [halloc]
  have e1 := e0.trans' (hStep_ext _ _ "old_state" e0.1 hac)
  exact e1.trans' (hStep_ext _ _ "new_state" e1.1 hac)

theorem pyGet_sce_step_ne (fd : List (String × PyVal)) (key k : String) (h : k ≠ key) :
    pyGet k (_filter_sce_step fd key) = pyGet k fd := by
  unfold _filter_sce_step
  cases hm : pyGet key fd with
  | none => rfl
  | some v =>
    cases v with
    | js j => rfl
    | st s => simpa using pyGet_dictSet_ne k key _ fd h

theorem sce_step_at_state (fd : List (String × PyVal)) (key : String) (s : State)
    (hm : pyGet key fd = some (PyVal.st s)) :
    pyGet key (_filter_sce_step fd key) =
      some (PyVal.js (JsonVal.obj (dictSet "attributes"
        (JsonVal.obj (_filter_attributes s.attributes)) s.as_dict))) := by
  unfold _filter_sce_step
  rw [hm]
  exact pyGet_dictSet_self ..

theorem sce_step_at_js (fd : List (String × PyVal)) (key : String) (j : JsonVal)
    (hm : pyGet key fd = some (PyVal.js j)) : _filter_sce_step fd key = fd := by
  unfold _filter_sce_step
  rw [hm]

theorem sce_step_at_none (fd : List (String × PyVal)) (key : String)
    (hm : pyGet key fd = none) : _filter_sce_step fd key = fd := by
  unfold _filter_sce_step
  rw [hm]

theorem process_core_tz (t : PyDatetime) : (_process_timestamp_core t).tz = some 0 := by
  rcases t with ⟨c, tz⟩
  cases tz with
  | none => rfl
  | some off =>
    by_cases h : off = 0
    · subst h; rfl
    · simp [_process_timestamp_core, as_utc, h]

theorem process_core_instant (t : PyDatetime) :
    (_process_timestamp_core t).instant = t.instant := by
  rcases t with ⟨c, tz⟩
  cases tz with
  | none => simp [_process_timestamp_core, utc_localize, PyDatetime.instant]
  | some off =>
    by_cases h : off = 0
    · subst h; rfl
    · simp [_process_timestamp_core, as_utc, h, PyDatetime.instant]

theorem process_core_idem (t : PyDatetime) :
    _process_timestamp_core (_process_timestamp_core t) = _process_timestamp_core t := by
  generalize hu : _process_timestamp_core t = u
  have h : u.tz = some 0 := hu ▸ process_core_tz t
  simp [_process_timestamp_core, as_utc, h]

/-!  The claims. -/

/-- Claim C6: the Attribute Filter returns the restriction of the input
mapping to keys outside the fixed seven-key deny list, preserving order
and values of the remaining entries; the result contains none of the
seven deny-listed keys, and the filter is idempotent. -/
theorem claim_C6_attribute_filter (A : List (String × JsonVal)) :
    _filter_attributes A = A.filter (fun kv => decide (kv.1 ∉ KEYS_TO_FILTER_FROM_DB)) ∧
    (_filter_attributes A).Sublist A ∧
    (∀ k v, (k, v) ∈ _filter_attributes A ↔ (k, v) ∈ A ∧ k ∉ KEYS_TO_FILTER_FROM_DB) ∧
    (∀ k, k ∈ KEYS_TO_FILTER_FROM_DB → pyGet k (_filter_attributes A) = none) ∧
    _filter_attributes (_filter_attributes A) = _filter_attributes A :=
  ⟨rfl, filterKeys_sublist A, fun k v => mem_filterKeys A k v,
   fun k hk => pyGet_filterKeys_denied A k hk, filterKeys_idem A⟩

/-- Witness for claim C6 at a concrete attribute mapping holding a
deny-listed key. -/
theorem claim_C6_attribute_filter_witness :
    ("icon" ∈ KEYS_TO_FILTER_FROM_DB ∧
      pyGet "icon" (_filter_attributes
        [("icon", JsonVal.str "mdi"), ("brightness", JsonVal.num 3)]) = none) ∧
    _filter_attributes (_filter_attributes
        [("icon", JsonVal.str "mdi"), ("brightness", JsonVal.num 3)]) =
      _filter_attributes [("icon", JsonVal.str "mdi"), ("brightness", JsonVal.num 3)] :=
  ⟨⟨by decide,
    (claim_C6_attribute_filter
      [("icon", JsonVal.str "mdi"), ("brightness", JsonVal.num 3)]).2.2.2.1 "icon" (by decide)⟩,
   (claim_C6_attribute_filter
      [("icon", JsonVal.str "mdi"), ("brightness", JsonVal.num 3)]).2.2.2.2⟩

/-- Claim C7: the Timestamp Normalizer maps null to null, tags a naive
timestamp as UTC without shifting its clock fields, converts any aware
timestamp to UTC, always yields an aware-UTC result denoting the same
absolute instant, and is idempotent. -/
theorem claim_C7_timestamp_normalizer :
    _process_timestamp none = none ∧
    (∀ c : Int, _process_timestamp (some ⟨c, none⟩) = some ⟨c, some 0⟩) ∧
    (∀ t : PyDatetime,
      _process_timestamp (some t) = some (_process_timestamp_core t) ∧
      (_process_timestamp_core t).tz = some 0 ∧
      (_process_timestamp_core t).instant = t.instant) ∧
    (∀ o : Option PyDatetime, _process_timestamp (_process_timestamp o) = _process_timestamp o) := by
  refine ⟨rfl, fun c => rfl, fun t => ⟨rfl, process_core_tz t, process_core_instant t⟩, fun o => ?_⟩
  cases o with
  | none => rfl
  | some t =>
    show some (_process_timestamp_core (_process_timestamp_core t)) =
      some (_process_timestamp_core t)
    rw [process_core_idem t]

/-- Claim C8: a stored event row whose payload is malformed JSON, and a
stored state row whose attributes are malformed JSON, reconstruct to null
with the error caught inside the codec (no exception escapes). -/
theorem claim_C8_malformed_json_yields_none :
    (∀ (e : Events) (s : String), e.event_data = JsonText.malformed s →
      Events.to_native e = none) ∧
    (∀ (r : States) (s : String), r.attributes = JsonText.malformed s →
      States.to_native r = Except.ok none) := by
  constructor
  · intro e s hs
    simp [Events.to_native, Events.to_native_body, hs, json_loads]
  · intro r s hs
    simp [States.to_native, hs, json_loads]

/-- Witness for claim C8: concrete rows whose stored JSON column holds
the malformed text from the specification scenario. -/
theorem claim_C8_malformed_json_yields_none_witness :
    Events.to_native
        { event_type := "test", event_data := JsonText.malformed "\x7binvalid",
          origin := "LOCAL", time_fired := ⟨0, some 0⟩,
          context_id := none, context_user_id := none } = none ∧
    States.to_native
        { domain := "light", entity_id := "light.kitchen", state := "on",
          attributes := JsonText.malformed "\x7binvalid",
          last_changed := ⟨0, some 0⟩, last_updated := ⟨0, some 0⟩,
          context_id := none, context_user_id := none } = Except.ok none :=
  ⟨claim_C8_malformed_json_yields_none.1
      { event_type := "test", event_data := JsonText.malformed "\x7binvalid",
        origin := "LOCAL", time_fired := ⟨0, some 0⟩,
        context_id := none, context_user_id := none } "\x7binvalid" rfl,
   claim_C8_malformed_json_yields_none.2
      { domain := "light", entity_id := "light.kitchen", state := "on",
        attributes := JsonText.malformed "\x7binvalid",
        last_changed := ⟨0, some 0⟩, last_updated := ⟨0, some 0⟩,
        context_id := none, context_user_id := none } "\x7binvalid" rfl⟩

/-- Claim C2 fails on the code: for a stored event row with valid JSON
payload but an origin string outside the enumeration, the constructor
call raises `ValueError` inside the same `try` block whose
`except ValueError` clause is commented as handling `json.loads`
failures, so `to_native` swallows the error and returns `None` instead of
propagating it. -/
theorem claim_C2_invalid_origin_swallowed :
    Events.to_native_body
        { event_type := "test", event_data := JsonText.valid (JsonVal.obj []),
          origin := "bogus", time_fired := ⟨0, some 0⟩,
          context_id := none, context_user_id := none } = Except.error PyExc.valueError ∧
    Events.to_native
        { event_type := "test", event_data := JsonText.valid (JsonVal.obj []),
          origin := "bogus", time_fired := ⟨0, some 0⟩,
          context_id := none, context_user_id := none } = none :=
  ⟨rfl, rfl⟩

/-- Claim C5: every state-changed event whose data has `new_state`
absent, or present as null, maps to a state row with empty-string state
(never null), the domain cut from the entity identifier before its
separator, attributes serialized as the empty object, and both
timestamps equal to the event's fired time, whatever other entries (such
as `old_state`) the data carries; at the scenario identifier the domain
is `light`. -/
theorem claim_C5_deletion_path (ev : Event) (eid : String)
    (hid : pyGet "entity_id" ev.data = some (PyVal.js (JsonVal.str eid)))
    (hns : pyGet "new_state" ev.data = none ∨
      pyGet "new_state" ev.data = some (PyVal.js JsonVal.null)) :
    States.from_event ev =
      Except.ok
        { domain := (split_entity_id eid).1, entity_id := eid, state := "",
          attributes := JsonText.valid (JsonVal.obj []),
          last_changed := ev.time_fired, last_updated := ev.time_fired,
          context_id := ev.context.id, context_user_id := ev.context.user_id } ∧
    (split_entity_id "light.kitchen").1 = "light" := by
  refine ⟨?_, by decide⟩
  rcases hns with h | h <;> simp [States.from_event, hid, h]

/-- Witness for claim C5: two concrete deletion events, one with
`new_state` absent and one with `new_state` null, both also carrying an
`old_state` entry (a state object in the second). -/
theorem claim_C5_deletion_path_witness :
    States.from_event
        { event_type := EVENT_STATE_CHANGED,
          data := [("entity_id", PyVal.js (JsonVal.str "light.kitchen")),
                   ("old_state", PyVal.js JsonVal.null)],
          origin := EventOrigin.«local», time_fired := ⟨7, some 0⟩,
          context := ⟨none, none⟩ } =
      Except.ok
        { domain := (split_entity_id "light.kitchen").1, entity_id := "light.kitchen",
          state := "", attributes := JsonText.valid (JsonVal.obj []),
          last_changed := ⟨7, some 0⟩, last_updated := ⟨7, some 0⟩,
          context_id := none, context_user_id := none } ∧
    States.from_event
        { event_type := EVENT_STATE_CHANGED,
          data := [("entity_id", PyVal.js (JsonVal.str "light.kitchen")),
                   ("old_state", PyVal.st ⟨"light.kitchen", "light", "on",
                      [("icon", JsonVal.str "mdi")],
                      ⟨5, some 0⟩, ⟨5, some 0⟩, ⟨none, none⟩⟩),
                   ("new_state", PyVal.js JsonVal.null)],
          origin := EventOrigin.«local», time_fired := ⟨8, some 0⟩,
          context := ⟨none, none⟩ } =
      Except.ok
        { domain := (split_entity_id "light.kitchen").1, entity_id := "light.kitchen",
          state := "", attributes := JsonText.valid (JsonVal.obj []),
          last_changed := ⟨8, some 0⟩, last_updated := ⟨8, some 0⟩,
          context_id := none, context_user_id := none } :=
  ⟨(claim_C5_deletion_path
      { event_type := EVENT_STATE_CHANGED,
        data := [("entity_id", PyVal.js (JsonVal.str "light.kitchen")),
                 ("old_state", PyVal.js JsonVal.null)],
        origin := EventOrigin.«local», time_fired := ⟨7, some 0⟩,
        context := ⟨none, none⟩ } "light.kitchen" rfl (Or.inl rfl)).1,
   (claim_C5_deletion_path
      { event_type := EVENT_STATE_CHANGED,
        data := [("entity_id", PyVal.js (JsonVal.str "light.kitchen")),
                 ("old_state", PyVal.st ⟨"light.kitchen", "light", "on",
                    [("icon", JsonVal.str "mdi")],
                    ⟨5, some 0⟩, ⟨5, some 0⟩, ⟨none, none⟩⟩),
                 ("new_state", PyVal.js JsonVal.null)],
        origin := EventOrigin.«local», time_fired := ⟨8, some 0⟩,
        context := ⟨none, none⟩ } "light.kitchen" rfl (Or.inr rfl)).1⟩

/-- Claim C10: `States.from_event` reads the `entity_id` key
unconditionally: an event data dict lacking the key makes it raise
`KeyError`, and whenever the key is present the `KeyError` branch is
unreachable (any remaining failure is of a different kind). -/
theorem claim_C10_entity_id_required (ev : Event) :
    (pyGet "entity_id" ev.data = none →
      States.from_event ev = Except.error PyExc.keyError) ∧
    (∀ v, pyGet "entity_id" ev.data = some v →
      States.from_event ev ≠ Except.error PyExc.keyError) := by
  constructor
  · intro h
    simp [States.from_event, h]
  · intro v hv
    cases v with
    | st s => simp [States.from_event, hv]
    | js j =>
      cases j with
      | str eid =>
        cases hm : pyGet "new_state" ev.data with
        | none => simp [States.from_event, hv, hm]
        | some w =>
          cases w with
          | st s => simp [States.from_event, hv, hm]
          | js jj => cases jj <;> simp [States.from_event, hv, hm]
      | null => simp [States.from_event, hv]
      | bool b => simp [States.from_event, hv]
      | num n => simp [States.from_event, hv]
      | arr l => simp [States.from_event, hv]
      | obj o => simp [States.from_event, hv]

/-- Witness for claim C10: an event without the key fails with
`KeyError`; one with the key does not hit that branch. -/
theorem claim_C10_entity_id_required_witness :
    States.from_event
        { event_type := EVENT_STATE_CHANGED, data := [],
          origin := EventOrigin.«local», time_fired := ⟨0, some 0⟩,
          context := ⟨none, none⟩ } = Except.error PyExc.keyError ∧
    States.from_event
        { event_type := EVENT_STATE_CHANGED,
          data := [("entity_id", PyVal.js (JsonVal.str "light.kitchen"))],
          origin := EventOrigin.«local», time_fired := ⟨0, some 0⟩,
          context := ⟨none, none⟩ } ≠ Except.error PyExc.keyError :=
  ⟨(claim_C10_entity_id_required
      { event_type := EVENT_STATE_CHANGED, data := [],
        origin := EventOrigin.«local», time_fired := ⟨0, some 0⟩,
        context := ⟨none, none⟩ }).1 rfl,
   (claim_C10_entity_id_required
      { event_type := EVENT_STATE_CHANGED,
        data := [("entity_id", PyVal.js (JsonVal.str "light.kitchen"))],
        origin := EventOrigin.«local», time_fired := ⟨0, some 0⟩,
        context := ⟨none, none⟩ }).2 (PyVal.js (JsonVal.str "light.kitchen")) rfl⟩

/-- Claim C9: the event-payload filter builds its result only in freshly
allocated dicts: replayed over an explicit heap, every dict that existed
before the call, including the event data dict and the attributes
mapping of any embedded state object, holds exactly its old entries
afterwards. -/
theorem claim_C9_payload_copy_no_mutation (h : Heap) (a : Nat) (i : Nat)
    (hi : i < h.length) : hget ((hFilterSCE h a).1) i = hget h i :=
  (hFilterSCE_ext h a).2 i hi

/-- Witness for claim C9: a heap holding an attributes dict (address 0)
and an event data dict (address 1) embedding a state that points at it;
both are unchanged by the call. -/
theorem claim_C9_payload_copy_no_mutation_witness :
    0 < (([[("icon", HVal.prim JsonVal.null)],
          [("entity_id", HVal.prim (JsonVal.str "light.kitchen")),
           ("new_state", HVal.sref ⟨"light.kitchen", "on", 0, ⟨1, some 0⟩, ⟨1, some 0⟩⟩)]] : Heap)).length ∧
    hget ((hFilterSCE
        [[("icon", HVal.prim JsonVal.null)],
         [("entity_id", HVal.prim (JsonVal.str "light.kitchen")),
          ("new_state", HVal.sref ⟨"light.kitchen", "on", 0, ⟨1, some 0⟩, ⟨1, some 0⟩⟩)]] 1).1) 0 =
      hget
        [[("icon", HVal.prim JsonVal.null)],
         [("entity_id", HVal.prim (JsonVal.str "light.kitchen")),
          ("new_state", HVal.sref ⟨"light.kitchen", "on", 0, ⟨1, some 0⟩, ⟨1, some 0⟩⟩)]] 0 :=
  ⟨by decide,
   claim_C9_payload_copy_no_mutation
      [[("icon", HVal.prim JsonVal.null)],
       [("entity_id", HVal.prim (JsonVal.str "light.kitchen")),
        ("new_state", HVal.sref ⟨"light.kitchen", "on", 0, ⟨1, some 0⟩, ⟨1, some 0⟩⟩)]] 1 0
      (by decide)⟩

/-- Claim C1: round-tripping a state object with aware-UTC timestamps
through the state codec (`from_event` on its state-changed event, then
`to_native`) reproduces its entity identifier, state value and both
timestamps, and yields exactly the filtered attributes. -/
theorem claim_C1_state_roundtrip (S : State) (tf : PyDatetime) (ctx : Context)
    (hlc : S.last_changed.tz = some 0) (hlu : S.last_updated.tz = some 0) :
    ∃ rec : States, States.from_event (stateChangedEvent S tf ctx) = Except.ok rec ∧
      ∃ T : State, States.to_native rec = Except.ok (some T) ∧
        T.entity_id = S.entity_id ∧ T.state = S.state ∧
        T.last_changed = S.last_changed ∧ T.last_updated = S.last_updated ∧
        T.attributes = _filter_attributes S.attributes := by
  refine ⟨_, rfl, _, rfl, rfl, rfl, ?_, ?_, rfl⟩
  · show _process_timestamp_core S.last_changed = S.last_changed
    simp [_process_timestamp_core, as_utc, hlc]
  · show _process_timestamp_core S.last_updated = S.last_updated
    simp [_process_timestamp_core, as_utc, hlu]

/-- Witness for claim C1 at a concrete state carrying a deny-listed and a
retained attribute. -/
theorem claim_C1_state_roundtrip_witness :
    (⟨"light.kitchen", "light", "on",
        [("icon", JsonVal.str "mdi"), ("brightness", JsonVal.num 3)],
        ⟨5, some 0⟩, ⟨6, some 0⟩, ⟨none, none⟩⟩ : State).last_changed.tz = some 0 ∧
    ∃ rec : States,
      States.from_event (stateChangedEvent
        ⟨"light.kitchen", "light", "on",
          [("icon", JsonVal.str "mdi"), ("brightness", JsonVal.num 3)],
          ⟨5, some 0⟩, ⟨6, some 0⟩, ⟨none, none⟩⟩ ⟨7, some 0⟩ ⟨none, none⟩) = Except.ok rec ∧
      ∃ T : State, States.to_native rec = Except.ok (some T) ∧
        T.entity_id = "light.kitchen" ∧ T.state = "on" ∧
        T.last_changed = ⟨5, some 0⟩ ∧ T.last_updated = ⟨6, some 0⟩ ∧
        T.attributes = _filter_attributes
          [("icon", JsonVal.str "mdi"), ("brightness", JsonVal.num 3)] :=
  ⟨rfl,
   claim_C1_state_roundtrip
     ⟨"light.kitchen", "light", "on",
       [("icon", JsonVal.str "mdi"), ("brightness", JsonVal.num 3)],
       ⟨5, some 0⟩, ⟨6, some 0⟩, ⟨none, none⟩⟩ ⟨7, some 0⟩ ⟨none, none⟩ rfl rfl⟩

/-- Claim C3: on a persisted run, `entity_ids` returns exactly the
distinct entity identifiers of state rows with `last_updated >= start`,
bounded above by `point_in_time` when given (ignoring `end`), else by
`end` when set, else unbounded; on an unpersisted run it fails with the
assertion. -/
theorem claim_C3_run_window_query :
    (∀ (run : RecorderRuns) (pit : Option PyDatetime), run.session = none →
      run.entity_ids pit = Except.error PyExc.assertionError) ∧
    (∀ (run : RecorderRuns) (db : List States) (pit : Option PyDatetime),
      run.session = some db →
      ∃ l, run.entity_ids pit = Except.ok l ∧ l.Nodup ∧
        (∀ eid, eid ∈ l ↔ ∃ s ∈ db, s.entity_id = eid ∧
          run.start.instant ≤ s.last_updated.instant ∧
          (match pit with
           | some p => s.last_updated.instant < p.instant
           | none =>
             match run.«end» with
             | some e => s.last_updated.instant < e.instant
             | none => True))) := by
  constructor
  · intro run pit h
    simp [RecorderRuns.entity_ids, h]
  · intro run db pit h
    rcases run with ⟨start, end_, ci, sess⟩
    obtain rfl : sess = some db := h
    cases pit with
    | some p =>
      refine ⟨_, rfl, List.nodup_dedup _, fun eid => ?_⟩
      simp only [List.mem_dedup, List.mem_map, List.mem_filter, dtLe, dtLt,
        decide_eq_true_eq]
      constructor
      · rintro ⟨s, ⟨⟨hdb, h1⟩, h2⟩, heq⟩
        exact ⟨s, hdb, heq, h1, h2⟩
      · rintro ⟨s, hdb, heq, h1, h2⟩
        exact ⟨s, ⟨⟨hdb, h1⟩, h2⟩, heq⟩
    | none =>
      cases end_ with
      | some e =>
        refine ⟨_, rfl, List.nodup_dedup _, fun eid => ?_⟩
        simp only [List.mem_dedup, List.mem_map, List.mem_filter, dtLe, dtLt,
          decide_eq_true_eq]
        constructor
        · rintro ⟨s, ⟨⟨hdb, h1⟩, h2⟩, heq⟩
          exact ⟨s, hdb, heq, h1, h2⟩
        · rintro ⟨s, hdb, heq, h1, h2⟩
          exact ⟨s, ⟨⟨hdb, h1⟩, h2⟩, heq⟩
      | none =>
        refine ⟨_, rfl, List.nodup_dedup _, fun eid => ?_⟩
        simp only [List.mem_dedup, List.mem_map, List.mem_filter, dtLe,
          decide_eq_true_eq]
        constructor
        · rintro ⟨s, ⟨hdb, h1⟩, heq⟩
          exact ⟨s, hdb, heq, h1, trivial⟩
        · rintro ⟨s, hdb, heq, h1, -⟩
          exact ⟨s, ⟨hdb, h1⟩, heq⟩

/-- Witness for claim C3: a transient run fails the assertion; a
persisted run with one in-window state row returns its entity. -/
theorem claim_C3_run_window_query_witness :
    RecorderRuns.entity_ids ⟨⟨10, some 0⟩, none, false, none⟩ none =
      Except.error PyExc.assertionError ∧
    (∃ l, RecorderRuns.entity_ids
        ⟨⟨10, some 0⟩, some ⟨20, some 0⟩, false,
         some [⟨"light", "light.kitchen", "on", JsonText.valid (JsonVal.obj []),
               ⟨15, some 0⟩, ⟨15, some 0⟩, none, none⟩]⟩ none = Except.ok l ∧
      l.Nodup ∧
      (∀ eid, eid ∈ l ↔ ∃ s ∈ [(⟨"light", "light.kitchen", "on",
            JsonText.valid (JsonVal.obj []), ⟨15, some 0⟩, ⟨15, some 0⟩,
            none, none⟩ : States)], s.entity_id = eid ∧
        (⟨⟨10, some 0⟩, some ⟨20, some 0⟩, false,
          some [⟨"light", "light.kitchen", "on", JsonText.valid (JsonVal.obj []),
                ⟨15, some 0⟩, ⟨15, some 0⟩, none, none⟩]⟩ : RecorderRuns).start.instant ≤
          s.last_updated.instant ∧
        (match (none : Option PyDatetime) with
         | some p => s.last_updated.instant < p.instant
         | none =>
           match (⟨⟨10, some 0⟩, some ⟨20, some 0⟩, false,
             some [⟨"light", "light.kitchen", "on", JsonText.valid (JsonVal.obj []),
                   ⟨15, some 0⟩, ⟨15, some 0⟩, none, none⟩]⟩ : RecorderRuns).«end» with
           | some e => s.last_updated.instant < e.instant
           | none => True))) :=
  ⟨claim_C3_run_window_query.1 ⟨⟨10, some 0⟩, none, false, none⟩ none rfl,
   claim_C3_run_window_query.2
     ⟨⟨10, some 0⟩, some ⟨20, some 0⟩, false,
      some [⟨"light", "light.kitchen", "on", JsonText.valid (JsonVal.obj []),
            ⟨15, some 0⟩, ⟨15, some 0⟩, none, none⟩]⟩
     [⟨"light", "light.kitchen", "on", JsonText.valid (JsonVal.obj []),
       ⟨15, some 0⟩, ⟨15, some 0⟩, none, none⟩] none rfl⟩

/-- Claim C4: serializing a state-changed event replaces the `old_state`
and `new_state` entries that are state objects by their dict form with
filtered attributes (so no deny-listed key survives inside them),
passes non-state values for those keys through unchanged, and leaves
every other top-level entry equal to the original. -/
theorem claim_C4_event_payload_filter (ev : Event)
    (hty : ev.event_type = EVENT_STATE_CHANGED) :
    ∃ P : List (String × JsonVal),
      json_loads (Events.from_event ev).event_data = some (JsonVal.obj P) ∧
      (∀ s : State, pyGet "old_state" ev.data = some (PyVal.st s) →
        ∃ d, pyGet "old_state" P = some (JsonVal.obj d) ∧
          pyGet "attributes" d = some (JsonVal.obj (_filter_attributes s.attributes)) ∧
          ∀ k ∈ KEYS_TO_FILTER_FROM_DB, pyGet k (_filter_attributes s.attributes) = none) ∧
      (∀ s : State, pyGet "new_state" ev.data = some (PyVal.st s) →
        ∃ d, pyGet "new_state" P = some (JsonVal.obj d) ∧
          pyGet "attributes" d = some (JsonVal.obj (_filter_attributes s.attributes)) ∧
          ∀ k ∈ KEYS_TO_FILTER_FROM_DB, pyGet k (_filter_attributes s.attributes) = none) ∧
      (∀ j : JsonVal, pyGet "old_state" ev.data = some (PyVal.js j) →
        pyGet "old_state" P = some j) ∧
      (∀ j : JsonVal, pyGet "new_state" ev.data = some (PyVal.js j) →
        pyGet "new_state" P = some j) ∧
      (∀ k, k ≠ "old_state" → k ≠ "new_state" →
        pyGet k P = (pyGet k ev.data).map pyValToJson) := by
  refine ⟨encodeData (_filter_state_change_event_data ev.data), ?_, ?_, ?_, ?_, ?_, ?_⟩
  · simp [Events.from_event, hty, json_loads]
  · intro s hs
    have h1 := sce_step_at_state ev.data "old_state" s hs
    have h2 : pyGet "old_state" (_filter_state_change_event_data ev.data) =
        some (PyVal.js (JsonVal.obj (dictSet "attributes"
          (JsonVal.obj (_filter_attributes s.attributes)) s.as_dict))) := by
      unfold _filter_state_change_event_data
      rw [pyGet_sce_step_ne _ "new_state" "old_state" (by decide)]
      exact h1
    refine ⟨dictSet "attributes" (JsonVal.obj (_filter_attributes s.attributes)) s.as_dict,
      ?_, pyGet_dictSet_self .., fun k hk => pyGet_filterKeys_denied _ k hk⟩
    rw [pyGet_encodeData, h2]
    rfl
  · intro s hs
    have h0 : pyGet "new_state" (_filter_sce_step ev.data "old_state") =
        some (PyVal.st s) := by
      rw [pyGet_sce_step_ne _ "old_state" "new_state" (by decide)]
      exact hs
    have h1 := sce_step_at_state _ "new_state" s h0
    have h2 : pyGet "new_state" (_filter_state_change_event_data ev.data) =
        some (PyVal.js (JsonVal.obj (dictSet "attributes"
          (JsonVal.obj (_filter_attributes s.attributes)) s.as_dict))) := by
      unfold _filter_state_change_event_data
      exact h1
    refine ⟨dictSet "attributes" (JsonVal.obj (_filter_attributes s.attributes)) s.as_dict,
      ?_, pyGet_dictSet_self .., fun k hk => pyGet_filterKeys_denied _ k hk⟩
    rw [pyGet_encodeData, h2]
    rfl
  · intro j hj
    have h1 := sce_step_at_js ev.data "old_state" j hj
    have h2 : pyGet "old_state" (_filter_state_change_event_data ev.data) =
        some (PyVal.js j) := by
      unfold _filter_state_change_event_data
      rw [pyGet_sce_step_ne _ "new_state" "old_state" (by decide), h1]
      exact hj
    rw [pyGet_encodeData, h2]
    rfl
  · intro j hj
    have h0 : pyGet "new_state" (_filter_sce_step ev.data "old_state") =
        some (PyVal.js j) := by
      rw [pyGet_sce_step_ne _ "old_state" "new_state" (by decide)]
      exact hj
    have h1 := sce_step_at_js _ "new_state" j h0
    have h2 : pyGet "new_state" (_filter_state_change_event_data ev.data) =
        some (PyVal.js j) := by
      unfold _filter_state_change_event_data
      rw [h1]
      exact h0
    rw [pyGet_encodeData, h2]
    rfl
  · intro k hk1 hk2
    rw [pyGet_encodeData]
    have h2 : pyGet k (_filter_state_change_event_data ev.data) = pyGet k ev.data := by
      unfold _filter_state_change_event_data
      rw [pyGet_sce_step_ne _ "new_state" k hk2, pyGet_sce_step_ne _ "old_state" k hk1]
    rw [h2]

/-- Witness for claim C4: a state-changed event embedding `old_state` and
`new_state` with the deny-listed key `icon` present in both. -/
theorem claim_C4_event_payload_filter_witness :
    (({ event_type := EVENT_STATE_CHANGED,
        data := [("entity_id", PyVal.js (JsonVal.str "light.kitchen")),
                 ("old_state", PyVal.st ⟨"light.kitchen", "light", "off",
                    [("icon", JsonVal.str "mdi"), ("brightness", JsonVal.num 1)],
                    ⟨1, some 0⟩, ⟨1, some 0⟩, ⟨none, none⟩⟩),
                 ("new_state", PyVal.st ⟨"light.kitchen", "light", "on",
                    [("icon", JsonVal.str "mdi"), ("brightness", JsonVal.num 2)],
                    ⟨2, some 0⟩, ⟨2, some 0⟩, ⟨none, none⟩⟩)],
        origin := EventOrigin.«local», time_fired := ⟨2, some 0⟩,
        context := ⟨none, none⟩ } : Event).event_type = EVENT_STATE_CHANGED) ∧
    (∃ P : List (String × JsonVal),
      json_loads (Events.from_event
        { event_type := EVENT_STATE_CHANGED,
          data := [("entity_id", PyVal.js (JsonVal.str "light.kitchen")),
                   ("old_state", PyVal.st ⟨"light.kitchen", "light", "off",
                      [("icon", JsonVal.str "mdi"), ("brightness", JsonVal.num 1)],
                      ⟨1, some 0⟩, ⟨1, some 0⟩, ⟨none, none⟩⟩),
                   ("new_state", PyVal.st ⟨"light.kitchen", "light", "on",
                      [("icon", JsonVal.str "mdi"), ("brightness", JsonVal.num 2)],
                      ⟨2, some 0⟩, ⟨2, some 0⟩, ⟨none, none⟩⟩)],
          origin := EventOrigin.«local», time_fired := ⟨2, some 0⟩,
          context := ⟨none, none⟩ }).event_data = some (JsonVal.obj P) ∧
      (∀ s : State, pyGet "old_state"
          ([("entity_id", PyVal.js (JsonVal.str "light.kitchen")),
            ("old_state", PyVal.st ⟨"light.kitchen", "light", "off",
               [("icon", JsonVal.str "mdi"), ("brightness", JsonVal.num 1)],
               ⟨1, some 0⟩, ⟨1, some 0⟩, ⟨none, none⟩⟩),
            ("new_state", PyVal.st ⟨"light.kitchen", "light", "on",
               [("icon", JsonVal.str "mdi"), ("brightness", JsonVal.num 2)],
               ⟨2, some 0⟩, ⟨2, some 0⟩, ⟨none, none⟩⟩)]) = some (PyVal.st s) →
        ∃ d, pyGet "old_state" P = some (JsonVal.obj d) ∧
          pyGet "attributes" d = some (JsonVal.obj (_filter_attributes s.attributes)) ∧
          ∀ k ∈ KEYS_TO_FILTER_FROM_DB, pyGet k (_filter_attributes s.attributes) = none) ∧
      (∀ s : State, pyGet "new_state"
          ([("entity_id", PyVal.js (JsonVal.str "light.kitchen")),
            ("old_state", PyVal.st ⟨"light.kitchen", "light", "off",
               [("icon", JsonVal.str "mdi"), ("brightness", JsonVal.num 1)],
               ⟨1, some 0⟩, ⟨1, some 0⟩, ⟨none, none⟩⟩),
            ("new_state", PyVal.st ⟨"light.kitchen", "light", "on",
               [("icon", JsonVal.str "mdi"), ("brightness", JsonVal.num 2)],
               ⟨2, some 0⟩, ⟨2, some 0⟩, ⟨none, none⟩⟩)]) = some (PyVal.st s) →
        ∃ d, pyGet "new_state" P = some (JsonVal.obj d) ∧
          pyGet "attributes" d = some (JsonVal.obj (_filter_attributes s.attributes)) ∧
          ∀ k ∈ KEYS_TO_FILTER_FROM_DB, pyGet k (_filter_attributes s.attributes) = none) ∧
      (∀ j : JsonVal, pyGet "old_state"
          ([("entity_id", PyVal.js (JsonVal.str "light.kitchen")),
            ("old_state", PyVal.st ⟨"light.kitchen", "light", "off",
               [("icon", JsonVal.str "mdi"), ("brightness", JsonVal.num 1)],
               ⟨1, some 0⟩, ⟨1, some 0⟩, ⟨none, none⟩⟩),
            ("new_state", PyVal.st ⟨"light.kitchen", "light", "on",
               [("icon", JsonVal.str "mdi"), ("brightness", JsonVal.num 2)],
               ⟨2, some 0⟩, ⟨2, some 0⟩, ⟨none, none⟩⟩)]) = some (PyVal.js j) →
        pyGet "old_state" P = some j) ∧
      (∀ j : JsonVal, pyGet "new_state"
          ([("entity_id", PyVal.js (JsonVal.str "light.kitchen")),
            ("old_state", PyVal.st ⟨"light.kitchen", "light", "off",
               [("icon", JsonVal.str "mdi"), ("brightness", JsonVal.num 1)],
               ⟨1, some 0⟩, ⟨1, some 0⟩, ⟨none, none⟩⟩),
            ("new_state", PyVal.st ⟨"light.kitchen", "light", "on",
               [("icon", JsonVal.str "mdi"), ("brightness", JsonVal.num 2)],
               ⟨2, some 0⟩, ⟨2, some 0⟩, ⟨none, none⟩⟩)]) = some (PyVal.js j) →
        pyGet "new_state" P = some j) ∧
      (∀ k, k ≠ "old_state" → k ≠ "new_state" →
        pyGet k P = (pyGet k
          ([("entity_id", PyVal.js (JsonVal.str "light.kitchen")),
            ("old_state", PyVal.st ⟨"light.kitchen", "light", "off",
               [("icon", JsonVal.str "mdi"), ("brightness", JsonVal.num 1)],
               ⟨1, some 0⟩, ⟨1, some 0⟩, ⟨none, none⟩⟩),
            ("new_state", PyVal.st ⟨"light.kitchen", "light", "on",
               [("icon", JsonVal.str "mdi"), ("brightness", JsonVal.num 2)],
               ⟨2, some 0⟩, ⟨2, some 0⟩, ⟨none, none⟩⟩)])).map pyValToJson)) :=
  ⟨rfl,
   claim_C4_event_payload_filter
     { event_type := EVENT_STATE_CHANGED,
       data := [("entity_id", PyVal.js (JsonVal.str "light.kitchen")),
                ("old_state", PyVal.st ⟨"light.kitchen", "light", "off",
                   [("icon", JsonVal.str "mdi"), ("brightness", JsonVal.num 1)],
                   ⟨1, some 0⟩, ⟨1, some 0⟩, ⟨none, none⟩⟩),
                ("new_state", PyVal.st ⟨"light.kitchen", "light", "on",
                   [("icon", JsonVal.str "mdi"), ("brightness", JsonVal.num 2)],
                   ⟨2, some 0⟩, ⟨2, some 0⟩, ⟨none, none⟩⟩)],
       origin := EventOrigin.«local», time_fired := ⟨2, some 0⟩,
       context := ⟨none, none⟩ } rfl⟩
